import Mathlib

/-!
Shallow embedding of the instrumentation and capability-gating core of the
mcp-posthog-analytics repository.

Source files embedded here:
- src/src/analytics.ts : the AnalyticsProvider tracking contract and the
  withAnalytics higher-order wrapper;
- src/src/posthog.ts   : the PostHogAnalyticsProvider backend adapter;
- the stdio server module (buildStdioServer) that registers the tools and
  consults the experimental_tools feature flag at startup.

Asynchronous JavaScript code is embedded as pure functions in the Except
monad: an async function that resolves with a value v is Except.ok v, and one
that rejects with a thrown value e is Except.error e.  Awaiting a call whose
promise rejects inside a try block transfers control to the catch block,
exactly as the JavaScript semantics prescribes; this is what the explicit
match on the Except result of each tracking call models.  Successive calls of
Date.now are modelled by a clock function from the sample index (0, 1, 2 in
call order) to the sampled integer millisecond value.  The list of tracking
calls made to the backend during one wrapped invocation is returned alongside
the result, so that theorems can speak about which calls were emitted and in
which order.
-/

/-- Scalar property values attached to analytics events (JSON-like). -/
inductive PropValue where
  | str : String → PropValue
  | int : Int → PropValue
  | bool : Bool → PropValue
  deriving DecidableEq

/-- Payload of a trackTool call: the result record with duration_ms, success
and the open extra attributes, as declared by the AnalyticsProvider interface
in src/src/analytics.ts. -/
structure TrackToolResult where
  duration_ms : Int
  success : Bool
  extra : List (String × PropValue)
  deriving DecidableEq

/-- Context record of a trackError call, as declared by the AnalyticsProvider
interface in src/src/analytics.ts: tool_name, duration_ms and the optional
args mapping. -/
structure TrackErrorContext where
  tool_name : String
  duration_ms : Int
  args : Option (List (String × PropValue))
  deriving DecidableEq

/-- One tracking call made by the wrapper to a backend, with its payload. -/
inductive TrackCall (ε : Type) where
  | tool : String → TrackToolResult → TrackCall ε
  | err : ε → TrackErrorContext → TrackCall ε
  deriving DecidableEq

/-- Behaviour of a backend implementing the AnalyticsProvider interface of
src/src/analytics.ts.  Each method maps the arguments of one call to the
awaited outcome of that call: Except.ok for a promise that resolves and
Except.error for one that rejects.  The field isFeatureEnabled takes the
index of the call (0 for the first query made through this backend) so that
successive queries against a remote flag store whose value changes over time
are representable. -/
structure AnalyticsProvider (ε : Type) where
  trackTool : String → TrackToolResult → Except ε Unit
  trackError : ε → TrackErrorContext → Except ε Unit
  isFeatureEnabled : Nat → String → Except ε Bool

/-- Embedding of withAnalytics from src/src/analytics.ts lines 56-84.  The
handler argument is the awaited outcome of the wrapped operation.  The clock
argument gives the successive return values of Date.now: sample 0 is the
start timestamp, sample 1 the timestamp taken right after the handler
settles, and sample 2 the timestamp taken at entry of the catch block in the
one path that reaches a third call of Date.now (a trackTool rejection after a
successful handler).  The returned list records every tracking call made, in
order.  Note that the source guards the tracking calls with the optional
chaining operator but with no try/catch of their own, so a rejecting
trackTool call falls into the catch block of the wrapper and a rejecting
trackError call escapes the wrapper altogether. -/
def withAnalytics {ε α : Type} (analytics : Option (AnalyticsProvider ε))
    (toolName : String) (handler : Except ε α) (clock : Nat → Int) :
    Except ε α × List (TrackCall ε) :=
  match handler, analytics with
  | Except.ok result, none => (Except.ok result, [])
  | Except.ok result, some a =>
      match a.trackTool toolName ⟨clock 1 - clock 0, true, []⟩ with
      | Except.ok _ =>
          (Except.ok result, [TrackCall.tool toolName ⟨clock 1 - clock 0, true, []⟩])
      | Except.error e =>
          match a.trackError e ⟨toolName, clock 2 - clock 0, none⟩ with
          | Except.ok _ =>
              (Except.error e,
                [TrackCall.tool toolName ⟨clock 1 - clock 0, true, []⟩,
                 TrackCall.err e ⟨toolName, clock 2 - clock 0, none⟩])
          | Except.error e2 =>
              (Except.error e2,
                [TrackCall.tool toolName ⟨clock 1 - clock 0, true, []⟩,
                 TrackCall.err e ⟨toolName, clock 2 - clock 0, none⟩])
  | Except.error e, none => (Except.error e, [])
  | Except.error e, some a =>
      match a.trackError e ⟨toolName, clock 1 - clock 0, none⟩ with
      | Except.ok _ =>
          (Except.error e, [TrackCall.err e ⟨toolName, clock 1 - clock 0, none⟩])
      | Except.error e2 =>
          (Except.error e2, [TrackCall.err e ⟨toolName, clock 1 - clock 0, none⟩])

example :
    withAnalytics (some (⟨fun _ _ => Except.ok (), fun _ _ => Except.ok (),
        fun _ _ => Except.ok false⟩ : AnalyticsProvider String))
      "getInventory" (Except.ok 42) (fun n => (n : Int))
      = (Except.ok 42, [TrackCall.tool "getInventory" ⟨1, true, []⟩]) := rfl

example :
    (withAnalytics (some (⟨fun _ _ => Except.error "down", fun _ _ => Except.ok (),
        fun _ _ => Except.ok false⟩ : AnalyticsProvider String))
      "getInventory" (Except.ok 42) (fun n => (n : Int))).fst
      = Except.error "down" := rfl

/-- Decidable equality of awaited outcomes, used to evaluate the concrete
counterexamples below. -/
instance {ε α : Type} [DecidableEq ε] [DecidableEq α] : DecidableEq (Except ε α) :=
  fun x y =>
    match x, y with
    | Except.ok a, Except.ok b =>
        if h : a = b then isTrue (by rw [h])
        else isFalse (by intro hh; injection hh; contradiction)
    | Except.ok _, Except.error _ => isFalse (by intro hh; exact Except.noConfusion hh)
    | Except.error _, Except.ok _ => isFalse (by intro hh; exact Except.noConfusion hh)
    | Except.error a, Except.error b =>
        if h : a = b then isTrue (by rw [h])
        else isFalse (by intro hh; injection hh; contradiction)

/-- Predicate selecting the trackTool calls of a trace. -/
def TrackCall.isTool {ε : Type} : TrackCall ε → Bool
  | TrackCall.tool _ _ => true
  | TrackCall.err _ _ => false

/-- JavaScript Error value, as used by the PostHog adapter: name (the kind of
the error) and message. -/
structure JsError where
  name : String
  message : String
  deriving DecidableEq

/-- One primitive call the PostHog adapter issues against the posthog-node
client: a capture event, a captureException report, or a feature-flag query.
Each carries the distinct id (the identity string) the adapter passed. -/
inductive PHEmission where
  | capture : String → String → List (String × PropValue) → PHEmission
  | captureException : JsError → String → List (String × PropValue) → PHEmission
  | flagQuery : String → String → PHEmission
  deriving DecidableEq

/-- Identity string carried by an emission: the distinctId argument of
capture and captureException, and the second argument of the client
isFeatureEnabled call. -/
def PHEmission.identity : PHEmission → String
  | PHEmission.capture d _ _ => d
  | PHEmission.captureException _ d _ => d
  | PHEmission.flagQuery _ d => d

/-- Behaviour of the external posthog-node client as far as the adapter
observes it: the outcome of the k-th isFeatureEnabled call for a flag name
and a distinct id.  The client may resolve with a boolean, resolve with
undefined (modelled as Option.none), or reject. -/
structure PostHogClient where
  isFeatureEnabledAt : Nat → String → String → Except String (Option Bool)

/-- State of a PostHogAnalyticsProvider instance from src/src/posthog.ts: the
nullable client and the private mcpInteractionId field.  The class declares
no method that writes mcpInteractionId after the constructor, so the state is
embedded as an immutable structure. -/
structure PostHogAnalyticsProvider where
  client : Option PostHogClient
  mcpInteractionId : String

/-- Embedding of the constructor of PostHogAnalyticsProvider
(src/src/posthog.ts lines 11-21).  The constructor builds the client from the
api key and host, and generates the identity string from the Date.now sample
and the process id.  The anonymizeData option is accepted by the source
constructor and then never stored nor read anywhere in the class, which is
why the resulting state has no corresponding field; the binder is kept here
to record that the option is discarded. -/
def mkPostHogAnalyticsProvider (apiKey : String) (host : Option String)
    (anonymizeData : Option Bool) (newClient : String → Option String → PostHogClient)
    (now : Int) (pid : Nat) : PostHogAnalyticsProvider :=
  ⟨some (newClient apiKey host), "mcp_" ++ toString now ++ "_" ++ toString pid⟩

/-- Embedding of PostHogAnalyticsProvider.trackTool (src/src/posthog.ts).
The method captures a tool_executed event whose properties spread the result
record after the tool_name key, using the stored identity as distinctId, and
resolves; when the client is null the optional chaining skips the capture.
The return value is the list of client calls issued. -/
def PostHogAnalyticsProvider.trackTool (p : PostHogAnalyticsProvider)
    (toolName : String) (result : TrackToolResult) : List PHEmission :=
  match p.client with
  | none => []
  | some _ =>
      [PHEmission.capture p.mcpInteractionId "tool_executed"
        (("tool_name", PropValue.str toolName) ::
          ("duration_ms", PropValue.int result.duration_ms) ::
          ("success", PropValue.bool result.success) :: result.extra)]

/-- Embedding of PostHogAnalyticsProvider.trackError (src/src/posthog.ts
lines 44-62).  The method calls captureException with the error, the stored
identity and a properties record holding exactly duration_ms and tool_name;
the args field of the context is not read anywhere in the method body. -/
def PostHogAnalyticsProvider.trackError (p : PostHogAnalyticsProvider)
    (error : JsError) (context : TrackErrorContext) : List PHEmission :=
  match p.client with
  | none => []
  | some _ =>
      [PHEmission.captureException error p.mcpInteractionId
        [("duration_ms", PropValue.int context.duration_ms),
         ("tool_name", PropValue.str context.tool_name)]]

/-- Embedding of PostHogAnalyticsProvider.isFeatureEnabled
(src/src/posthog.ts lines 64-70).  The method awaits the client lookup with
the stored identity and coalesces an undefined resolution to false; it has no
try/catch and no timeout, so a lookup that rejects makes the method itself
reject with the same error.  The first component is the outcome of the
method, the second the list of client calls issued (the query is issued even
when it subsequently rejects). -/
def PostHogAnalyticsProvider.isFeatureEnabled (p : PostHogAnalyticsProvider)
    (k : Nat) (flagName : String) : Except String Bool × List PHEmission :=
  match p.client with
  | none => (Except.ok false, [])
  | some c =>
      match c.isFeatureEnabledAt k flagName p.mcpInteractionId with
      | Except.ok (some b) => (Except.ok b, [PHEmission.flagQuery flagName p.mcpInteractionId])
      | Except.ok none => (Except.ok false, [PHEmission.flagQuery flagName p.mcpInteractionId])
      | Except.error e => (Except.error e, [PHEmission.flagQuery flagName p.mcpInteractionId])

/-- One call against a provider instance, used to describe arbitrary call
sequences over the lifetime of the instance. -/
inductive ProviderOp where
  | tool : String → TrackToolResult → ProviderOp
  | err : JsError → TrackErrorContext → ProviderOp
  | flag : Nat → String → ProviderOp

/-- Client calls emitted by one provider call. -/
def PostHogAnalyticsProvider.emit (p : PostHogAnalyticsProvider) :
    ProviderOp → List PHEmission
  | ProviderOp.tool n r => p.trackTool n r
  | ProviderOp.err e c => p.trackError e c
  | ProviderOp.flag k f => (p.isFeatureEnabled k f).snd

/-- Client calls emitted by a sequence of provider calls, in order. -/
def PostHogAnalyticsProvider.emitAll (p : PostHogAnalyticsProvider)
    (ops : List ProviderOp) : List PHEmission :=
  (ops.map p.emit).flatten

/-- Modelled from the spec: the anonymization policy (spec section 4.3),
whose implementation is absent from the source files under src (the source
constructor accepts the anonymizeData option but the class contains no
anonymize member); the repository README documents the intended helper.
Given an optional mapping of named argument values, it yields the empty
mapping on absent input and otherwise a mapping with identical keys and every
value replaced by the fixed redaction marker. -/
def anonymize (data : Option (List (String × PropValue))) :
    List (String × PropValue) :=
  match data with
  | none => []
  | some d => d.map (fun kv => (kv.1, PropValue.str "[REDACTED]"))

/-- Ungated tools registered unconditionally by buildStdioServer, in
registration order. -/
def ungatedTools : List String := ["getInventory", "checkStock", "analyze_data"]

/-- Embedding of buildStdioServer from the stdio server module
(src/unnamed/part_001 lines 12-54).  The three ungated tools are registered
unconditionally; then the function awaits one isFeatureEnabled query for
experimental_tools, coalesces a missing backend to false with the logical-or
fallback, and registers risky_operation exactly when the resolved value is
true.  The result is the list of registered tool names of the built server;
because the flag query is awaited with no try/catch, a rejecting query makes
buildStdioServer itself reject and no server is produced (startup aborts). -/
def buildStdioServer {ε : Type} (analytics : Option (AnalyticsProvider ε)) :
    Except ε (List String) :=
  match analytics with
  | none => Except.ok ungatedTools
  | some a =>
      match a.isFeatureEnabled 0 "experimental_tools" with
      | Except.error e => Except.error e
      | Except.ok b =>
          Except.ok (if b then ungatedTools ++ ["risky_operation"] else ungatedTools)

example :
    buildStdioServer (some (⟨fun _ _ => Except.ok (), fun _ _ => Except.ok (),
        fun _ _ => Except.ok true⟩ : AnalyticsProvider String))
      = Except.ok ["getInventory", "checkStock", "analyze_data", "risky_operation"] := rfl

example :
    (mkPostHogAnalyticsProvider "phc_k" none (some true)
        (fun _ _ => ⟨fun _ _ _ => Except.ok none⟩) 7 3).mcpInteractionId
      = "mcp_7_3" := rfl

/-- C1 counterexample: a backend whose trackTool call rejects is a backend
whose tracking call fails, yet the wrapper does not absorb the failure: for a
handler that resolves with 42, withAnalytics raises the tracking error to its
caller instead of returning 42. -/
theorem c1_counterexample :
    (withAnalytics (some (⟨fun _ _ => Except.error "posthog down",
        fun _ _ => Except.ok (), fun _ _ => Except.ok false⟩ : AnalyticsProvider String))
      "getInventory" (Except.ok 42) (fun n => (n : Int))).fst
      = Except.error "posthog down" ∧
    (withAnalytics (some (⟨fun _ _ => Except.error "posthog down",
        fun _ _ => Except.ok (), fun _ _ => Except.ok false⟩ : AnalyticsProvider String))
      "getInventory" (Except.ok 42) (fun n => (n : Int))).fst
      ≠ Except.ok 42 := by
  refine ⟨rfl, ?_⟩
  decide

/-- C1 amended: withAnalytics does not absorb tracking-call failures.  When
the operation succeeds but the trackTool call rejects, the wrapper enters its
catch path, invokes trackError with the tracking failure, and raises the
tracking failure to the caller in place of the result of the operation; when
the operation fails and the trackError call rejects, the trackError rejection
is raised in place of the original error; only when the relevant tracking
call resolves is the result or error of the operation passed through
unchanged. -/
theorem c1_amended {ε α : Type} (a : AnalyticsProvider ε) (toolName : String)
    (clock : Nat → Int) :
    (∀ (v : α) (e : ε),
        a.trackTool toolName ⟨clock 1 - clock 0, true, []⟩ = Except.error e →
        a.trackError e ⟨toolName, clock 2 - clock 0, none⟩ = Except.ok () →
        (withAnalytics (some a) toolName (Except.ok v) clock).fst = Except.error e) ∧
    (∀ (e e2 : ε),
        a.trackError e ⟨toolName, clock 1 - clock 0, none⟩ = Except.error e2 →
        (withAnalytics (some a) toolName (Except.error e : Except ε α) clock).fst
          = Except.error e2) ∧
    (∀ v : α,
        a.trackTool toolName ⟨clock 1 - clock 0, true, []⟩ = Except.ok () →
        (withAnalytics (some a) toolName (Except.ok v) clock).fst = Except.ok v) ∧
    (∀ e : ε,
        a.trackError e ⟨toolName, clock 1 - clock 0, none⟩ = Except.ok () →
        (withAnalytics (some a) toolName (Except.error e : Except ε α) clock).fst
          = Except.error e) := by
  refine ⟨fun v e h1 h2 => by simp [withAnalytics, h1, h2],
    fun e e2 h => by simp [withAnalytics, h],
    fun v h => by simp [withAnalytics, h],
    fun e h => by simp [withAnalytics, h]⟩

/-- C1 witness: the amended statement instantiated at concrete backends, one
with a rejecting trackTool call, one with a rejecting trackError call, and
one whose tracking calls resolve. -/
theorem c1_witness :
    (withAnalytics (some (⟨fun _ _ => Except.error "tcp reset",
        fun _ _ => Except.ok (), fun _ _ => Except.ok false⟩ : AnalyticsProvider String))
      "getInventory" (Except.ok 41) (fun n => (n : Int))).fst = Except.error "tcp reset" ∧
    (withAnalytics (some (⟨fun _ _ => Except.ok (),
        fun _ _ => Except.error "queue full", fun _ _ => Except.ok false⟩ :
          AnalyticsProvider String))
      "checkStock" (Except.error "boom" : Except String Nat) (fun n => (n : Int))).fst
      = Except.error "queue full" ∧
    (withAnalytics (some (⟨fun _ _ => Except.ok (), fun _ _ => Except.ok (),
        fun _ _ => Except.ok false⟩ : AnalyticsProvider String))
      "getInventory" (Except.ok 41) (fun n => (n : Int))).fst = Except.ok 41 ∧
    (withAnalytics (some (⟨fun _ _ => Except.ok (), fun _ _ => Except.ok (),
        fun _ _ => Except.ok false⟩ : AnalyticsProvider String))
      "checkStock" (Except.error "boom" : Except String Nat) (fun n => (n : Int))).fst
      = Except.error "boom" :=
  ⟨(c1_amended _ "getInventory" (fun n => (n : Int))).1 41 "tcp reset" rfl rfl,
   (c1_amended _ "checkStock" (fun n => (n : Int))).2.1 "boom" "queue full" rfl,
   (c1_amended _ "getInventory" (fun n => (n : Int))).2.2.1 41 rfl,
   (c1_amended _ "checkStock" (fun n => (n : Int))).2.2.2 "boom" rfl⟩

/-- C4 counterexample: with a backend present whose trackTool call rejects, a
single succeeding invocation emits two tracking calls, one trackTool and one
trackError, so the emitted count is not exactly one. -/
theorem c4_counterexample :
    (withAnalytics (some (⟨fun _ _ => Except.error "capture rejected",
        fun _ _ => Except.ok (), fun _ _ => Except.ok false⟩ : AnalyticsProvider String))
      "analyze_data" (Except.ok 3) (fun n => (n : Int))).snd
      = [TrackCall.tool "analyze_data" ⟨1, true, []⟩,
         TrackCall.err "capture rejected" ⟨"analyze_data", 2, none⟩] ∧
    (withAnalytics (some (⟨fun _ _ => Except.error "capture rejected",
        fun _ _ => Except.ok (), fun _ _ => Except.ok false⟩ : AnalyticsProvider String))
      "analyze_data" (Except.ok 3) (fun n => (n : Int))).snd.length ≠ 1 := by
  refine ⟨rfl, ?_⟩
  decide

/-- C4 amended: with a backend present, one invocation emits one or two
tracking calls and never zero; the count is exactly one unless the operation
succeeds and the trackTool call itself rejects, in which case exactly two
calls are emitted, the trackTool call followed by a trackError call that
reports the tracking failure. -/
theorem c4_amended {ε α : Type} (a : AnalyticsProvider ε) (toolName : String)
    (handler : Except ε α) (clock : Nat → Int) :
    ((withAnalytics (some a) toolName handler clock).snd.length = 1 ∨
      (withAnalytics (some a) toolName handler clock).snd.length = 2) ∧
    ((withAnalytics (some a) toolName handler clock).snd.length = 2 ↔
      ∃ v : α, handler = Except.ok v ∧
        ∃ e : ε, a.trackTool toolName ⟨clock 1 - clock 0, true, []⟩ = Except.error e) := by
  cases handler with
  | ok v =>
      cases htt : a.trackTool toolName ⟨clock 1 - clock 0, true, []⟩ with
      | ok u => simp [withAnalytics, htt]
      | error e =>
          cases hte : a.trackError e ⟨toolName, clock 2 - clock 0, none⟩ <;>
            simp [withAnalytics, htt, hte]
  | error e =>
      cases hte : a.trackError e ⟨toolName, clock 1 - clock 0, none⟩ <;>
        simp [withAnalytics, hte]

/-- C5 counterexample: a present backend whose trackTool call rejects makes
withAnalytics raise the tracking error instead of returning the exact result
of the succeeding handler, refuting the unconditional return clause of the
claim. -/
theorem c5_counterexample :
    (withAnalytics (some (⟨fun _ _ => Except.error "capture failed",
        fun _ _ => Except.ok (), fun _ _ => Except.ok false⟩ : AnalyticsProvider String))
      "checkStock" (Except.ok 7) (fun n => (n : Int))).fst ≠ Except.ok 7 ∧
    (withAnalytics (some (⟨fun _ _ => Except.error "capture failed",
        fun _ _ => Except.ok (), fun _ _ => Except.ok false⟩ : AnalyticsProvider String))
      "checkStock" (Except.ok 7) (fun n => (n : Int))).fst
      = Except.error "capture failed" := by
  refine ⟨?_, rfl⟩
  decide

/-- C5 amended: for every handler that resolves and every present backend,
the first tracking call is the single trackTool call, carrying success true
and a duration equal to the difference of the completion and start clock
samples, which is non-negative whenever the clock is monotone; the call is
awaited, and provided it resolves, withAnalytics returns the exact result of
the handler together with that one-element call trace. -/
theorem c5_amended {ε α : Type} (a : AnalyticsProvider ε) (toolName : String)
    (v : α) (clock : Nat → Int) :
    (withAnalytics (some a) toolName (Except.ok v) clock).snd.head?
      = some (TrackCall.tool toolName ⟨clock 1 - clock 0, true, []⟩) ∧
    (withAnalytics (some a) toolName (Except.ok v) clock).snd.countP TrackCall.isTool = 1 ∧
    (a.trackTool toolName ⟨clock 1 - clock 0, true, []⟩ = Except.ok () →
      withAnalytics (some a) toolName (Except.ok v) clock
        = (Except.ok v, [TrackCall.tool toolName ⟨clock 1 - clock 0, true, []⟩])) ∧
    (clock 0 ≤ clock 1 → 0 ≤ clock 1 - clock 0) := by
  refine ⟨?_, ?_, fun h => by simp [withAnalytics, h], fun h => by omega⟩ <;>
  · cases htt : a.trackTool toolName ⟨clock 1 - clock 0, true, []⟩ with
    | ok u =>
        simp [withAnalytics, htt, TrackCall.isTool, List.countP_cons, List.countP_nil]
    | error e =>
        cases hte : a.trackError e ⟨toolName, clock 2 - clock 0, none⟩ <;>
          simp [withAnalytics, htt, hte, TrackCall.isTool, List.countP_cons,
            List.countP_nil]

/-- C5 witness: the amended statement instantiated at a backend whose
trackTool call resolves, a handler resolving with 7 and the identity clock. -/
theorem c5_witness :
    withAnalytics (some (⟨fun _ _ => Except.ok (), fun _ _ => Except.ok (),
        fun _ _ => Except.ok false⟩ : AnalyticsProvider String))
      "getInventory" (Except.ok 7) (fun n => (n : Int))
      = (Except.ok 7, [TrackCall.tool "getInventory" ⟨1, true, []⟩]) ∧
    (0 : Int) ≤ 1 - 0 :=
  ⟨(c5_amended (⟨fun _ _ => Except.ok (), fun _ _ => Except.ok (),
      fun _ _ => Except.ok false⟩ : AnalyticsProvider String)
      "getInventory" 7 (fun n => (n : Int))).2.2.1 rfl,
   (c5_amended (⟨fun _ _ => Except.ok (), fun _ _ => Except.ok (),
      fun _ _ => Except.ok false⟩ : AnalyticsProvider String)
      "getInventory" 7 (fun n => (n : Int))).2.2.2 (by decide)⟩

/-- C6 counterexample: a present backend whose trackError call rejects makes
withAnalytics raise the trackError rejection instead of re-raising the
original error of the failing handler, refuting the unconditional re-raise
clause of the claim. -/
theorem c6_counterexample :
    (withAnalytics (some (⟨fun _ _ => Except.ok (),
        fun _ _ => Except.error "exception pipe closed", fun _ _ => Except.ok false⟩ :
          AnalyticsProvider String))
      "checkStock" (Except.error "Product 9 not found" : Except String Nat)
      (fun n => (n : Int))).fst = Except.error "exception pipe closed" ∧
    (withAnalytics (some (⟨fun _ _ => Except.ok (),
        fun _ _ => Except.error "exception pipe closed", fun _ _ => Except.ok false⟩ :
          AnalyticsProvider String))
      "checkStock" (Except.error "Product 9 not found" : Except String Nat)
      (fun n => (n : Int))).fst ≠ Except.error "Product 9 not found" := by
  refine ⟨rfl, ?_⟩
  decide

/-- C6 amended: for every handler that rejects and every present backend,
exactly one trackError call is made, carrying the thrown error, the operation
name and the duration, and it is awaited before the wrapper settles; provided
that call resolves, the original error is re-raised unchanged; if the
trackError call itself rejects, its rejection is raised to the caller in
place of the original error. -/
theorem c6_amended {ε α : Type} (a : AnalyticsProvider ε) (toolName : String)
    (e : ε) (clock : Nat → Int) :
    (withAnalytics (some a) toolName (Except.error e : Except ε α) clock).snd
      = [TrackCall.err e ⟨toolName, clock 1 - clock 0, none⟩] ∧
    (a.trackError e ⟨toolName, clock 1 - clock 0, none⟩ = Except.ok () →
      (withAnalytics (some a) toolName (Except.error e : Except ε α) clock).fst
        = Except.error e) ∧
    (∀ e2 : ε, a.trackError e ⟨toolName, clock 1 - clock 0, none⟩ = Except.error e2 →
      (withAnalytics (some a) toolName (Except.error e : Except ε α) clock).fst
        = Except.error e2) := by
  refine ⟨?_, fun h => by simp [withAnalytics, h], fun e2 h => by simp [withAnalytics, h]⟩
  cases hte : a.trackError e ⟨toolName, clock 1 - clock 0, none⟩ <;>
    simp [withAnalytics, hte]

/-- C6 witness: the amended statement instantiated at a backend whose
trackError call resolves and at one whose trackError call rejects, for a
handler rejecting with a concrete error. -/
theorem c6_witness :
    (withAnalytics (some (⟨fun _ _ => Except.ok (), fun _ _ => Except.ok (),
        fun _ _ => Except.ok false⟩ : AnalyticsProvider String))
      "checkStock" (Except.error "Product 4 not found" : Except String Nat)
      (fun n => (n : Int))).snd
      = [TrackCall.err "Product 4 not found" ⟨"checkStock", 1, none⟩] ∧
    (withAnalytics (some (⟨fun _ _ => Except.ok (), fun _ _ => Except.ok (),
        fun _ _ => Except.ok false⟩ : AnalyticsProvider String))
      "checkStock" (Except.error "Product 4 not found" : Except String Nat)
      (fun n => (n : Int))).fst = Except.error "Product 4 not found" ∧
    (withAnalytics (some (⟨fun _ _ => Except.ok (), fun _ _ => Except.error "buffer gone",
        fun _ _ => Except.ok false⟩ : AnalyticsProvider String))
      "checkStock" (Except.error "Product 4 not found" : Except String Nat)
      (fun n => (n : Int))).fst = Except.error "buffer gone" :=
  ⟨(c6_amended (⟨fun _ _ => Except.ok (), fun _ _ => Except.ok (),
      fun _ _ => Except.ok false⟩ : AnalyticsProvider String)
      "checkStock" "Product 4 not found" (fun n => (n : Int))).1,
   (c6_amended (⟨fun _ _ => Except.ok (), fun _ _ => Except.ok (),
      fun _ _ => Except.ok false⟩ : AnalyticsProvider String)
      "checkStock" "Product 4 not found" (fun n => (n : Int))).2.1 rfl,
   (c6_amended (⟨fun _ _ => Except.ok (), fun _ _ => Except.error "buffer gone",
      fun _ _ => Except.ok false⟩ : AnalyticsProvider String)
      "checkStock" "Product 4 not found" (fun n => (n : Int))).2.2 "buffer gone" rfl⟩

/-- C7: invoking withAnalytics with an absent backend is observationally
identical to invoking the handler directly, for every handler outcome: the
same result is returned or the same error raised, and the tracking-call trace
is empty. -/
theorem c7_no_backend_passthrough {ε α : Type} (toolName : String)
    (handler : Except ε α) (clock : Nat → Int) :
    withAnalytics (none : Option (AnalyticsProvider ε)) toolName handler clock
      = (handler, []) := by
  cases handler <;> rfl

/-- C2 code-bug evidence: a provider constructed with anonymizeData true,
handed a failing-call context that carries argument values, captures an
exception whose properties hold exactly duration_ms and tool_name; no args
key, redacted or otherwise, reaches the backend, because the source
constructor discards the anonymizeData option and trackError never reads
context.args.  The last conjunct evaluates the policy modelled from the spec
at the same arguments, showing the redacted mapping the claim describes. -/
theorem c2_code_bug :
    (mkPostHogAnalyticsProvider "phc_key" none (some true)
        (fun _ _ => ⟨fun _ _ _ => Except.ok none⟩) 0 1).trackError
        ⟨"Error", "Product 42 not found"⟩
        ⟨"checkStock", 5, some [("productId", PropValue.str "42")]⟩
      = [PHEmission.captureException ⟨"Error", "Product 42 not found"⟩ "mcp_0_1"
          [("duration_ms", PropValue.int 5), ("tool_name", PropValue.str "checkStock")]] ∧
    List.lookup "args"
      [("duration_ms", PropValue.int 5), ("tool_name", PropValue.str "checkStock")]
      = none ∧
    anonymize (some [("productId", PropValue.str "42")])
      = [("productId", PropValue.str "[REDACTED]")] :=
  ⟨rfl, rfl, rfl⟩

/-- C3 counterexample: a flag lookup whose client call rejects is a failing
backend lookup, yet the provider method propagates the rejection instead of
resolving to false, and the capability gate in turn rejects, aborting server
construction, instead of treating the flag as false. -/
theorem c3_counterexample :
    ((mkPostHogAnalyticsProvider "phc_key" none (some true)
        (fun _ _ => ⟨fun _ _ _ => Except.error "ECONNREFUSED"⟩) 2 4).isFeatureEnabled 0
        "experimental_tools").fst = Except.error "ECONNREFUSED" ∧
    ((mkPostHogAnalyticsProvider "phc_key" none (some true)
        (fun _ _ => ⟨fun _ _ _ => Except.error "ECONNREFUSED"⟩) 2 4).isFeatureEnabled 0
        "experimental_tools").fst ≠ Except.ok false ∧
    buildStdioServer (some (⟨fun _ _ => Except.ok (), fun _ _ => Except.ok (),
        fun _ _ => Except.error "ECONNREFUSED"⟩ : AnalyticsProvider String))
      = Except.error "ECONNREFUSED" := by
  refine ⟨rfl, by decide, rfl⟩

/-- C3 amended: a flag lookup that resolves to undefined resolves the query
to false without raising, a resolved boolean is passed through, and a missing
client resolves to false; but the code has no timeout of its own and no
catch, so a flag lookup that rejects propagates its error out of
isFeatureEnabled, and the capability gate propagates it further, aborting
startup rather than resolving the query to false. -/
theorem c3_amended (p : PostHogAnalyticsProvider)
    (beh : Nat → String → String → Except String (Option Bool))
    (hc : p.client = some ⟨beh⟩) (k : Nat) (flag : String) :
    (beh k flag p.mcpInteractionId = Except.ok none →
      (p.isFeatureEnabled k flag).fst = Except.ok false) ∧
    (∀ b : Bool, beh k flag p.mcpInteractionId = Except.ok (some b) →
      (p.isFeatureEnabled k flag).fst = Except.ok b) ∧
    (∀ e : String, beh k flag p.mcpInteractionId = Except.error e →
      (p.isFeatureEnabled k flag).fst = Except.error e) ∧
    (∀ q : PostHogAnalyticsProvider, q.client = none →
      (q.isFeatureEnabled k flag).fst = Except.ok false) ∧
    (∀ (a : AnalyticsProvider String) (e : String),
      a.isFeatureEnabled 0 "experimental_tools" = Except.error e →
      buildStdioServer (some a) = Except.error e) :=
  ⟨fun h => by simp [PostHogAnalyticsProvider.isFeatureEnabled, hc, h],
   fun b h => by simp [PostHogAnalyticsProvider.isFeatureEnabled, hc, h],
   fun e h => by simp [PostHogAnalyticsProvider.isFeatureEnabled, hc, h],
   fun q hq => by simp [PostHogAnalyticsProvider.isFeatureEnabled, hq],
   fun a e h => by simp [buildStdioServer, h]⟩

/-- C3 witness: the amended statement instantiated at concrete clients that
resolve undefined, resolve true, and reject, and at a gate backend whose
query rejects. -/
theorem c3_witness :
    ((mkPostHogAnalyticsProvider "phc_key" none none
        (fun _ _ => ⟨fun _ _ _ => Except.ok none⟩) 1 2).isFeatureEnabled 0
        "experimental_tools").fst = Except.ok false ∧
    ((mkPostHogAnalyticsProvider "phc_key" none none
        (fun _ _ => ⟨fun _ _ _ => Except.ok (some true)⟩) 1 2).isFeatureEnabled 0
        "experimental_tools").fst = Except.ok true ∧
    ((mkPostHogAnalyticsProvider "phc_key" none none
        (fun _ _ => ⟨fun _ _ _ => Except.error "socket hang up"⟩) 1 2).isFeatureEnabled 0
        "experimental_tools").fst = Except.error "socket hang up" ∧
    buildStdioServer (some (⟨fun _ _ => Except.ok (), fun _ _ => Except.ok (),
        fun _ _ => Except.error "socket hang up"⟩ : AnalyticsProvider String))
      = Except.error "socket hang up" :=
  ⟨(c3_amended (mkPostHogAnalyticsProvider "phc_key" none none
      (fun _ _ => ⟨fun _ _ _ => Except.ok none⟩) 1 2)
      (fun _ _ _ => Except.ok none) rfl 0 "experimental_tools").1 rfl,
   (c3_amended (mkPostHogAnalyticsProvider "phc_key" none none
      (fun _ _ => ⟨fun _ _ _ => Except.ok (some true)⟩) 1 2)
      (fun _ _ _ => Except.ok (some true)) rfl 0 "experimental_tools").2.1 true rfl,
   (c3_amended (mkPostHogAnalyticsProvider "phc_key" none none
      (fun _ _ => ⟨fun _ _ _ => Except.error "socket hang up"⟩) 1 2)
      (fun _ _ _ => Except.error "socket hang up") rfl 0 "experimental_tools").2.2.1
      "socket hang up" rfl,
   (c3_amended (mkPostHogAnalyticsProvider "phc_key" none none
      (fun _ _ => ⟨fun _ _ _ => Except.ok none⟩) 1 2)
      (fun _ _ _ => Except.ok none) rfl 0 "experimental_tools").2.2.2.2
      (⟨fun _ _ => Except.ok (), fun _ _ => Except.ok (),
        fun _ _ => Except.error "socket hang up"⟩ : AnalyticsProvider String)
      "socket hang up" rfl⟩

/-- C8: at startup the gated operation risky_operation is present in the
registered operation set if and only if the single startup flag query
resolves to true; with no backend the set is exactly the three ungated
operations; the ungated operations are registered in every built server; and
the registered set depends only on the outcome of the first flag query, so a
later change of the remote flag value (a different outcome for any later
query index) leaves the registered set unchanged without a restart.  A query
that the underlying client answers by timing out internally reaches the gate
as a resolution to false and therefore also leaves the gated operation
absent. -/
theorem c8_gate {ε : Type} :
    buildStdioServer (none : Option (AnalyticsProvider ε)) = Except.ok ungatedTools ∧
    (∀ (a : AnalyticsProvider ε) (tools : List String),
      buildStdioServer (some a) = Except.ok tools →
      (("risky_operation" ∈ tools ↔
          a.isFeatureEnabled 0 "experimental_tools" = Except.ok true) ∧
        ∀ t ∈ ungatedTools, t ∈ tools)) ∧
    (∀ a1 a2 : AnalyticsProvider ε, a1.isFeatureEnabled 0 = a2.isFeatureEnabled 0 →
      buildStdioServer (some a1) = buildStdioServer (some a2)) := by
  refine ⟨rfl, fun a tools h => ?_, fun a1 a2 h => by simp [buildStdioServer, h]⟩
  cases hf : a.isFeatureEnabled 0 "experimental_tools" with
  | error e => simp [buildStdioServer, hf] at h
  | ok b =>
      cases b <;>
      · simp [buildStdioServer, hf] at h
        subst h
        simp [hf, ungatedTools]

/-- C8 witness: a backend whose first flag query resolves to true yields a
registered set holding risky_operation, and the registered set keeps every
ungated operation. -/
theorem c8_witness :
    "risky_operation" ∈ ["getInventory", "checkStock", "analyze_data", "risky_operation"] ∧
    "getInventory" ∈ ["getInventory", "checkStock", "analyze_data", "risky_operation"] :=
  have hp := c8_gate.2.1 (⟨fun _ _ => Except.ok (), fun _ _ => Except.ok (),
      fun _ _ => Except.ok true⟩ : AnalyticsProvider String)
    ["getInventory", "checkStock", "analyze_data", "risky_operation"] rfl
  ⟨hp.1.mpr rfl, hp.2 "getInventory" (by decide)⟩

/-- Every client call emitted by one provider call carries the stored
identity of the provider instance. -/
theorem c9_emit_identity (p : PostHogAnalyticsProvider) (op : ProviderOp)
    (em : PHEmission) (hm : em ∈ p.emit op) : em.identity = p.mcpInteractionId := by
  cases op with
  | tool n r =>
      cases hc : p.client with
      | none =>
          simp [PostHogAnalyticsProvider.emit, PostHogAnalyticsProvider.trackTool, hc] at hm
      | some c =>
          simp [PostHogAnalyticsProvider.emit, PostHogAnalyticsProvider.trackTool, hc] at hm
          subst hm; rfl
  | err e ctx =>
      cases hc : p.client with
      | none =>
          simp [PostHogAnalyticsProvider.emit, PostHogAnalyticsProvider.trackError, hc] at hm
      | some c =>
          simp [PostHogAnalyticsProvider.emit, PostHogAnalyticsProvider.trackError, hc] at hm
          subst hm; rfl
  | flag k f =>
      cases hc : p.client with
      | none =>
          simp [PostHogAnalyticsProvider.emit,
            PostHogAnalyticsProvider.isFeatureEnabled, hc] at hm
      | some c =>
          cases hres : c.isFeatureEnabledAt k f p.mcpInteractionId with
          | ok ob =>
              cases ob <;>
              · simp [PostHogAnalyticsProvider.emit,
                  PostHogAnalyticsProvider.isFeatureEnabled, hc, hres] at hm
                subst hm; rfl
          | error e =>
              simp [PostHogAnalyticsProvider.emit,
                PostHogAnalyticsProvider.isFeatureEnabled, hc, hres] at hm
              subst hm; rfl

/-- C9: the identity string of a provider instance is fixed at construction
from the Date.now sample and the process id, the instance exposes no way to
change it, and every success event, error report and flag query issued
through the instance, over an arbitrary sequence of calls, carries that same
construction-time identity value. -/
theorem c9_identity (apiKey : String) (host : Option String)
    (anonymizeData : Option Bool) (newClient : String → Option String → PostHogClient)
    (now : Int) (pid : Nat) (ops : List ProviderOp) (em : PHEmission)
    (hm : em ∈ (mkPostHogAnalyticsProvider apiKey host anonymizeData
      newClient now pid).emitAll ops) :
    em.identity = "mcp_" ++ toString now ++ "_" ++ toString pid := by
  induction ops with
  | nil => simp [PostHogAnalyticsProvider.emitAll] at hm
  | cons op rest ih =>
      simp only [PostHogAnalyticsProvider.emitAll, List.map_cons, List.flatten_cons,
        List.mem_append] at hm
      cases hm with
      | inl h =>
          have hid := c9_emit_identity _ op em h
          simpa [mkPostHogAnalyticsProvider] using hid
      | inr h => exact ih (by simpa [PostHogAnalyticsProvider.emitAll] using h)

/-- C9 witness: a provider constructed at time 5 in process 9 issues a flag
query whose identity is the construction-time string. -/
theorem c9_witness :
    (PHEmission.flagQuery "experimental_tools" "mcp_5_9").identity
      = "mcp_" ++ toString (5 : Int) ++ "_" ++ toString (9 : Nat) :=
  c9_identity "phc_key" none (some true)
    (fun _ _ => ⟨fun _ _ _ => Except.ok (some true)⟩) 5 9
    [ProviderOp.flag 0 "experimental_tools"]
    (PHEmission.flagQuery "experimental_tools" "mcp_5_9") (by decide)

/-- C10: the context the wrapper passes to trackError holds only the
operation name and the duration, never an argument mapping, so two runs of a
wrapped operation that differ only in the arguments given to the handler and
fail with the same error produce identical wrapper results and identical
tracking traces; moreover the PostHog adapter payload for an error report
does not depend on the args field of its context at all. -/
theorem c10_args_noninterference {ε α ι : Type} (a : AnalyticsProvider ε)
    (toolName : String) (toolFn : ι → Except ε α) (args1 args2 : ι) (e : ε)
    (clock : Nat → Int) (h1 : toolFn args1 = Except.error e)
    (h2 : toolFn args2 = Except.error e) :
    withAnalytics (some a) toolName (toolFn args1) clock
      = withAnalytics (some a) toolName (toolFn args2) clock ∧
    (∀ c ∈ (withAnalytics (some a) toolName (toolFn args1) clock).snd,
      c = TrackCall.err e ⟨toolName, clock 1 - clock 0, none⟩) ∧
    (∀ (p : PostHogAnalyticsProvider) (err : JsError) (ctx : TrackErrorContext),
      p.trackError err ctx = p.trackError err ⟨ctx.tool_name, ctx.duration_ms, none⟩) := by
  refine ⟨by rw [h1, h2], ?_, fun p err ctx => ?_⟩
  · rw [h1]
    cases hte : a.trackError e ⟨toolName, clock 1 - clock 0, none⟩ <;>
      simp [withAnalytics, hte]
  · cases hcl : p.client <;> simp [PostHogAnalyticsProvider.trackError, hcl]

/-- C10 witness: two invocations of the same failing tool with different
argument values produce identical wrapper outcomes and traces. -/
theorem c10_witness :
    withAnalytics (some (⟨fun _ _ => Except.ok (), fun _ _ => Except.ok (),
        fun _ _ => Except.ok false⟩ : AnalyticsProvider String))
      "checkStock"
      ((fun _ : Nat => (Except.error "Product 7 not found" : Except String Nat)) 1)
      (fun n => (n : Int))
      = withAnalytics (some (⟨fun _ _ => Except.ok (), fun _ _ => Except.ok (),
          fun _ _ => Except.ok false⟩ : AnalyticsProvider String))
        "checkStock"
        ((fun _ : Nat => (Except.error "Product 7 not found" : Except String Nat)) 2)
        (fun n => (n : Int)) :=
  (c10_args_noninterference (⟨fun _ _ => Except.ok (), fun _ _ => Except.ok (),
      fun _ _ => Except.ok false⟩ : AnalyticsProvider String) "checkStock"
    (fun _ : Nat => (Except.error "Product 7 not found" : Except String Nat)) 1 2
    "Product 7 not found" (fun n => (n : Int)) rfl rfl).1
